import Mathlib

/-!
Verification of the liquid-glass `Filter` component (src/components/LiquidGlass/Filter.tsx,
provided as src/unnamed/part_000) against its natural-language specification.

The component assembles an SVG filter graph (a list of filter primitives with string-named
results wired through `in`/`in2` attributes) from scalar/optional parameters, and computes
three rasterized bitmaps from the geometric parameters.  We embed:

* the emitted node list (`filterContent`), translated attribute-by-attribute from the JSX
  at lines 127-303 of the source (geometry-only attributes `x`/`y`/`width`/`height` of the
  `feImage` nodes are not modelled: no claim concerns them);
* DAG well-formedness of `in`/`in2` references (`wellFormed`);
* the `maximumDisplacement` reduction of the 1-D field (source lines 74-76);
* the dataflow of the three rasterizer calls (source lines 65-110), with the rasterizer
  bodies — which live in modules not included under src/ — abstracted as function
  parameters, so the theorems about them quantify over every possible rasterizer body;
* a pixel semantics for the emitted graph over spatially-constant images, following the
  SVG 1.1 filter-primitive semantics of the external rendering substrate (spec §6), in
  which Gaussian blur and displacement act as the identity.

Numbers are embedded as `ℚ` (the source manipulates IEEE doubles only through `*`, `??`
and attribute plumbing in the fragments the claims concern, so exact rationals are
faithful there).
-/

namespace LiquidGlass

/-- Color scheme selector: the `colorScheme` prop is an optional
`MotionValue<"light" | "dark">` (source line 39). -/
inductive Scheme where
  | light
  | dark
deriving DecidableEq

/-- The three rasterized bitmaps referenced by `feImage` nodes via data URLs
(source lines 112-122). Only their identity matters for the graph structure. -/
inductive BitmapRef where
  | magnifyingDisplacementMap
  | displacementMap
  | specularLayer
deriving DecidableEq

/-- Payload of a `feColorMatrix` node: either one of the two literal 4x5 presets selected
by the color scheme (source lines 160-166: dark is `0.9` diagonal with `-0.3` offsets,
light is `1.03` diagonal with `0.2` offsets) or `type="saturate"` with a numeric value
(source lines 262-271). -/
inductive CMVals where
  | preset (s : Scheme)
  | saturate (v : ℚ)
deriving DecidableEq

/-- One SVG filter primitive as emitted by the component. String fields record the
`in`/`in2`/`mode`/`operator`/channel-selector attributes verbatim. A component-transfer
node records the `(slope, intercept)` pair of each `feFuncR/G/B/A` child it declares
(an absent intercept attribute is the SVG default `0`). -/
inductive FOp where
  | feImage (href : BitmapRef)
  | feDisplacementMap (inp in2 : String) (scaleAttr : ℚ) (xSel ySel : String)
  | feColorMatrix (inp : String) (vals : CMVals)
  | feGaussianBlur (inp : String) (stdDeviation : ℚ)
  | feComponentTransfer (inp : String) (funcR funcG funcB funcA : Option (ℚ × ℚ))
  | feBlend (inp in2 : String) (mode : String)
  | feComposite (inp in2 : String) (op2 : String)
deriving DecidableEq

/-- A filter-graph node: a primitive plus its optional `result` name.
The terminal node of the component has no `result` attribute (source line 302). -/
structure FNode where
  op : FOp
  result : Option String
deriving DecidableEq

/-- The props of the `Filter` component that the claims concern (source lines 23-43).
`Option` marks props the caller may omit; `MotionValue`-or-number props are embedded by
their numeric value (`getValueOrMotion` reads the current value either way).
The props `id` and `withSvgWrapper` only wrap the emitted node list and are not modelled. -/
structure FilterParams where
  blur : ℚ
  specularOpacity : ℚ
  specularSaturation : Option ℚ
  scaleRatio : Option ℚ
  magnifyingScale : Option ℚ
  colorScheme : Option Scheme
  width : ℚ
  height : ℚ
  radius : ℚ
  glassThickness : ℚ
  bezelWidth : ℚ
  refractiveIndex : ℚ
  canvasWidth : Option ℚ
  canvasHeight : Option ℚ
  dpr : Option ℚ
  bezelHeightFn : Option (ℚ → ℚ)

/-- JavaScript truthiness of the `magnifyingScale` prop when supplied as a number or
omitted: `undefined` and `0` are falsy, every other number is truthy.  This is the test
performed by the JSX guard `magnifyingScale && (...)` (source line 129) and by the guard
`if (magnifyingScale)` of the data-URL computation (source line 113). -/
def numberTruthy : Option ℚ → Bool
  | none => false
  | some v => decide (v ≠ 0)

/-- Truthiness of `magnifyingDisplacementMapDataUrl` as tested by the JSX ternaries at
source lines 154-158 and 172-178.  In the source this value is the `MotionValue` object
returned by `useTransform` (lines 112-116); the ternaries test the object itself, not its
current value, and a JavaScript object is always truthy — so this condition is constantly
`true`, independent of `magnifyingScale`. -/
def magnifyingDisplacementMapDataUrlTruthy : Bool := true

/-- Destructuring default of the `specularSaturation` prop: `specularSaturation = 4`
(source line 59). -/
def effSpecularSaturation (p : FilterParams) : ℚ := p.specularSaturation.getD 4

/-- Modelled from the spec: the `CONVEX` surface profile of `surfaceEquations` (a module
not included under src/).  The spec fixes only that it is a pure height function on
`[0,1]` and the default bezel profile (spec §3, §6); its exact formula is left open
(spec §9).  The claims depend only on its identity, so a fixed concave-down quadratic
bulge stands in for it. -/
def CONVEX_fn : ℚ → ℚ := fun t => t * (2 - t)

/-- The dispersion auto-scale: `maximumDisplacement.get() * (scaleRatio?.get() ?? 1)`
(source lines 123-125).  `m` is the current value of the reactive `maximumDisplacement`
cell. -/
def scaleOf (p : FilterParams) (m : ℚ) : ℚ := m * (p.scaleRatio.getD 1)

/-- The ordered node list emitted inside `<filter id={id}>` (source lines 127-303),
translated node-by-node from the JSX.  `m` is the current value of the
`maximumDisplacement` reactive cell. -/
def filterContent (p : FilterParams) (m : ℚ) : List FNode :=
  -- `{magnifyingScale && (<feImage .../> <feDisplacementMap .../>)}`, lines 129-149
  (if numberTruthy p.magnifyingScale then
    [⟨.feImage .magnifyingDisplacementMap, some "magnifying_displacement_map"⟩,
     ⟨.feDisplacementMap "SourceGraphic" "magnifying_displacement_map"
        (p.magnifyingScale.getD 0) "R" "G", some "magnified_source"⟩]
   else [])
  ++
  -- `{colorScheme && (<feColorMatrix .../>)}`, lines 152-169
  (match p.colorScheme with
   | some s =>
     [⟨.feColorMatrix
         (if magnifyingDisplacementMapDataUrlTruthy then "magnified_source"
          else "SourceGraphic")
         (.preset s), some "brightened_source"⟩]
   | none => [])
  ++
  -- feGaussianBlur, lines 171-181
  [⟨.feGaussianBlur
      (if p.colorScheme.isSome then "brightened_source"
       else if magnifyingDisplacementMapDataUrlTruthy then "magnified_source"
       else "SourceGraphic")
      p.blur, some "blurred_source"⟩,
   -- feImage of the displacement map, lines 183-190
   ⟨.feImage .displacementMap, some "displacement_map"⟩,
   -- channel isolation, lines 193-209
   ⟨.feComponentTransfer "blurred_source"
      (some (1, 0)) (some (0, 0)) (some (0, 0)) none, some "red_channel"⟩,
   ⟨.feComponentTransfer "blurred_source"
      (some (0, 0)) (some (1, 0)) (some (0, 0)) none, some "green_channel"⟩,
   ⟨.feComponentTransfer "blurred_source"
      (some (0, 0)) (some (0, 0)) (some (1, 0)) none, some "blue_channel"⟩,
   -- per-channel displacement, lines 212-239
   ⟨.feDisplacementMap "red_channel" "displacement_map"
      (scaleOf p m * 0.8) "R" "G", some "displaced_red"⟩,
   ⟨.feDisplacementMap "green_channel" "displacement_map"
      (scaleOf p m * 0.9) "R" "G", some "displaced_green"⟩,
   ⟨.feDisplacementMap "blue_channel" "displacement_map"
      (scaleOf p m) "R" "G", some "displaced_blue"⟩,
   -- screen recombination, lines 242-243
   ⟨.feBlend "displaced_red" "displaced_green" "screen", some "displaced_rg"⟩,
   ⟨.feBlend "displaced_rg" "displaced_blue" "screen", some "displaced_combined"⟩,
   -- secondary blur + fade + overlay blend, lines 246-260
   ⟨.feGaussianBlur "displaced_combined" 10, some "displaced_blurred"⟩,
   ⟨.feComponentTransfer "displaced_blurred"
      none none none (some (0.7, 0)), some "displaced_blurred_faded"⟩,
   ⟨.feBlend "displaced_combined" "displaced_blurred_faded" "normal", some "displaced"⟩,
   -- saturation, lines 262-271
   ⟨.feColorMatrix "displaced" (.saturate (effSpecularSaturation p)),
     some "displaced_saturated"⟩,
   -- specular stage, lines 273-302
   ⟨.feImage .specularLayer, some "specular_layer"⟩,
   ⟨.feComposite "displaced_saturated" "specular_layer" "in", some "specular_saturated"⟩,
   ⟨.feComponentTransfer "specular_layer"
      none none none (some (p.specularOpacity, 0)), some "specular_faded"⟩,
   ⟨.feBlend "specular_saturated" "displaced" "normal", some "withSaturation"⟩,
   ⟨.feBlend "specular_faded" "withSaturation" "normal", none⟩]

/-- The `in`/`in2` references of a primitive (a `feImage` consumes no prior result). -/
def fopInputs : FOp → List String
  | .feImage _ => []
  | .feDisplacementMap i i2 _ _ _ => [i, i2]
  | .feColorMatrix i _ => [i]
  | .feGaussianBlur i _ => [i]
  | .feComponentTransfer i _ _ _ _ => [i]
  | .feBlend i i2 _ => [i, i2]
  | .feComposite i i2 _ => [i, i2]

/-- A reference is resolvable when it is the reserved source token used by the component
(`SourceGraphic`) or the result name of a previously emitted node. -/
def resolvable (declared : List String) (s : String) : Bool :=
  s = "SourceGraphic" || declared.contains s

/-- Walk the node list in emission order, checking every `in`/`in2` reference against the
result names declared so far. -/
def wellFormedFrom : List String → List FNode → Bool
  | _, [] => true
  | ds, n :: rest =>
    (fopInputs n.op).all (resolvable ds) &&
      wellFormedFrom (match n.result with | some r2 => ds ++ [r2] | none => ds) rest

/-- DAG well-formedness of an emitted node list: no node references a result name before
it is declared. -/
def wellFormed (g : List FNode) : Bool := wellFormedFrom [] g

/-- The reduction `Math.max(...map.get().map((v) => Math.abs(v)))` (source lines 74-76).
JavaScript's `Math.max()` of an empty spread is `-Infinity`; the empty case (returned
here as `0`) is outside every claim, which all assume a non-empty field. -/
def maximumDisplacement (l : List ℚ) : ℚ :=
  match l.map (fun v => |v|) with
  | [] => 0
  | x :: xs => xs.foldl max x

lemma foldl_max_bounds (l : List ℚ) : ∀ a : ℚ,
    a ≤ l.foldl max a ∧ ∀ y ∈ l, y ≤ l.foldl max a := by
  induction l with
  | nil => intro a; simp
  | cons y l ih =>
    intro a
    simp only [List.foldl_cons]
    refine ⟨le_trans (le_max_left a y) (ih (max a y)).1, ?_⟩
    intro z hz
    rcases List.mem_cons.mp hz with h | h
    · rw [h]; exact le_trans (le_max_right a y) (ih (max a y)).1
    · exact (ih (max a y)).2 z h

lemma foldl_max_mem (l : List ℚ) : ∀ a : ℚ,
    l.foldl max a = a ∨ l.foldl max a ∈ l := by
  induction l with
  | nil => intro a; simp
  | cons y l ih =>
    intro a
    simp only [List.foldl_cons]
    rcases ih (max a y) with h | h
    · rcases max_choice a y with hm | hm
      · exact Or.inl (h.trans hm)
      · exact Or.inr (by rw [h, hm]; exact List.mem_cons_self y l)
    · exact Or.inr (List.mem_cons_of_mem y h)

/-- Modelled from the spec: one RGBA pixel of the external rendering substrate (spec §6),
stored premultiplied, components rational.  The substrate's filter primitives are
evaluated on spatially-constant images, so one pixel stands for a whole image. -/
structure Px where
  r : ℚ
  g : ℚ
  b : ℚ
  a : ℚ
deriving DecidableEq

/-- Clamp a channel to the representable range `[0,1]`. -/
def clamp01 (x : ℚ) : ℚ := max 0 (min 1 x)

/-- Non-premultiplied red channel (`0` for a fully transparent pixel). -/
def straightR (p : Px) : ℚ := if p.a = 0 then 0 else p.r / p.a

/-- Non-premultiplied green channel. -/
def straightG (p : Px) : ℚ := if p.a = 0 then 0 else p.g / p.a

/-- Non-premultiplied blue channel. -/
def straightB (p : Px) : ℚ := if p.a = 0 then 0 else p.b / p.a

/-- Re-premultiply straight channels with an alpha. -/
def premultOf (r g b a : ℚ) : Px := ⟨r * a, g * a, b * a, a⟩

/-- Apply one optional `feFunc` linear transfer `(slope, intercept)` to a straight
channel; an absent transfer function is the identity (SVG `type="linear"`,
`C' = slope*C + intercept`, clamped to the channel range). -/
def transferApp (f : Option (ℚ × ℚ)) (x : ℚ) : ℚ :=
  match f with
  | none => x
  | some si => clamp01 (si.1 * x + si.2)

/-- Modelled from the spec: `feComponentTransfer` semantics of the substrate — operates
on non-premultiplied channels, per-channel linear transfer, result re-premultiplied. -/
def transferPx (fr fg fb fa : Option (ℚ × ℚ)) (p : Px) : Px :=
  premultOf (transferApp fr (straightR p)) (transferApp fg (straightG p))
    (transferApp fb (straightB p)) (transferApp fa p.a)

/-- Modelled from the spec: `feColorMatrix` semantics of the substrate on
non-premultiplied channels.  `saturate s` is the SVG saturation matrix
(`R' = (0.213+0.787s)R + (0.715-0.715s)G + (0.072-0.072s)B`, etc., alpha unchanged);
the two presets are the literal 4x5 matrices of source lines 163-164:
dark scales by `0.9` and offsets by `-0.3`, light scales by `1.03` and offsets by `0.2`,
with alpha row `0 0 0 1 0` in both. -/
def colorMatrixPx (vals : CMVals) (p : Px) : Px :=
  match vals with
  | .saturate s =>
    premultOf
      (clamp01 ((0.213 + 0.787 * s) * straightR p + (0.715 - 0.715 * s) * straightG p +
        (0.072 - 0.072 * s) * straightB p))
      (clamp01 ((0.213 - 0.213 * s) * straightR p + (0.715 + 0.285 * s) * straightG p +
        (0.072 - 0.072 * s) * straightB p))
      (clamp01 ((0.213 - 0.213 * s) * straightR p + (0.715 - 0.715 * s) * straightG p +
        (0.072 + 0.928 * s) * straightB p))
      (clamp01 p.a)
  | .preset .dark =>
    premultOf (clamp01 (0.9 * straightR p - 0.3)) (clamp01 (0.9 * straightG p - 0.3))
      (clamp01 (0.9 * straightB p - 0.3)) (clamp01 p.a)
  | .preset .light =>
    premultOf (clamp01 (1.03 * straightR p + 0.2)) (clamp01 (1.03 * straightG p + 0.2))
      (clamp01 (1.03 * straightB p + 0.2)) (clamp01 p.a)

/-- Modelled from the spec: `feBlend` semantics of the substrate on premultiplied pixels
(`s` the `in` layer on top, `b` the `in2` backdrop): `normal` is source-over
(`cr = cs + cb*(1-as)`), `screen` is `cr = cs + cb - cs*cb`; the result alpha is
`as + ab - as*ab` for both.  Only these two modes occur in the component; blending
in-range pixels stays in range, so no clamp is applied here. -/
def blendPx (mode : String) (s b : Px) : Px :=
  if mode = "screen" then
    ⟨s.r + b.r - s.r * b.r, s.g + b.g - s.g * b.g, s.b + b.b - s.b * b.b,
     s.a + b.a - s.a * b.a⟩
  else
    ⟨s.r + b.r * (1 - s.a), s.g + b.g * (1 - s.a), s.b + b.b * (1 - s.a),
     s.a + b.a * (1 - s.a)⟩

/-- Modelled from the spec: `feComposite` semantics of the substrate; Porter-Duff `in`
keeps the `in` layer masked by the `in2` layer's alpha (`cr = cs*ab`, `ar = as*ab`).
Only `operator="in"` occurs in the component. -/
def compositePx (op2 : String) (s b : Px) : Px :=
  if op2 = "in" then ⟨s.r * b.a, s.g * b.a, s.b * b.a, s.a * b.a⟩ else s

/-- The constant input images of one graph evaluation: the filtered source content and
the constant pixel of each rasterized bitmap. -/
structure EvalIn where
  src : Px
  mag : Px
  disp : Px
  spec : Px

/-- The constant pixel an `feImage` node produces. -/
def bitmapPx (I : EvalIn) : BitmapRef → Px
  | .magnifyingDisplacementMap => I.mag
  | .displacementMap => I.disp
  | .specularLayer => I.spec

/-- Look up a result name in the evaluation environment (most recent binding first). -/
def lookupPx (s : String) : List (String × Px) → Option Px
  | [] => none
  | (k, v) :: rest => if s = k then some v else lookupPx s rest

/-- Resolve an `in`/`in2` reference: the reserved `SourceGraphic` token yields the source;
a declared result name yields its value; an unresolvable name falls back to the result of
the previous primitive (`SourceGraphic` for the first), per the SVG defaulting rule for
missing or dangling `in` references. -/
def resolveIn (I : EvalIn) (env : List (String × Px)) (last : Px) (s : String) : Px :=
  if s = "SourceGraphic" then I.src
  else match lookupPx s env with
    | some v => v
    | none => last

/-- Evaluate one primitive on constant images.  Gaussian blur and displacement are the
identity on a constant image (blurring a constant field or sampling it at a displaced
position returns the same pixel). -/
def evalStep (I : EvalIn) (env : List (String × Px)) (last : Px) : FOp → Px
  | .feImage h => bitmapPx I h
  | .feDisplacementMap inp _ _ _ _ => resolveIn I env last inp
  | .feColorMatrix inp vals => colorMatrixPx vals (resolveIn I env last inp)
  | .feGaussianBlur inp _ => resolveIn I env last inp
  | .feComponentTransfer inp fr fg fb fa => transferPx fr fg fb fa (resolveIn I env last inp)
  | .feBlend inp in2 mode => blendPx mode (resolveIn I env last inp) (resolveIn I env last in2)
  | .feComposite inp in2 op2 =>
    compositePx op2 (resolveIn I env last inp) (resolveIn I env last in2)

/-- Evaluate a node list in order, threading the result environment and the previous
primitive's value; returns the final environment and the last value (the image of the
terminal, unnamed node). -/
def evalNodes (I : EvalIn) : List FNode → List (String × Px) → Px → List (String × Px) × Px
  | [], env, last => (env, last)
  | n :: rest, env, last =>
    let v := evalStep I env last n.op
    evalNodes I rest (match n.result with | some r2 => (r2, v) :: env | none => env) v

/-- The image of the terminal (result-less) blend of the emitted graph. -/
def terminalPx (I : EvalIn) (p : FilterParams) (m : ℚ) : Px :=
  (evalNodes I (filterContent p m) [] I.src).2

/-- The image bound to a result name after evaluating the emitted graph. -/
def resultPx (I : EvalIn) (p : FilterParams) (m : ℚ) (name : String) : Option Px :=
  lookupPx name (evalNodes I (filterContent p m) [] I.src).1

lemma evalNodes_append (I : EvalIn) (xs ys : List FNode) :
    ∀ (env : List (String × Px)) (last : Px),
      evalNodes I (xs ++ ys) env last =
        evalNodes I ys (evalNodes I xs env last).1 (evalNodes I xs env last).2 := by
  induction xs with
  | nil => intro env last; rfl
  | cons n xs ih =>
    intro env last
    simp only [List.cons_append, evalNodes]
    exact ih _ _

/-- Every node of the emitted graph before the five-node terminal specular stage. -/
def filterFront (p : FilterParams) (m : ℚ) : List FNode :=
  (if numberTruthy p.magnifyingScale then
    [⟨.feImage .magnifyingDisplacementMap, some "magnifying_displacement_map"⟩,
     ⟨.feDisplacementMap "SourceGraphic" "magnifying_displacement_map"
        (p.magnifyingScale.getD 0) "R" "G", some "magnified_source"⟩]
   else [])
  ++
  (match p.colorScheme with
   | some s =>
     [⟨.feColorMatrix
         (if magnifyingDisplacementMapDataUrlTruthy then "magnified_source"
          else "SourceGraphic")
         (.preset s), some "brightened_source"⟩]
   | none => [])
  ++
  [⟨.feGaussianBlur
      (if p.colorScheme.isSome then "brightened_source"
       else if magnifyingDisplacementMapDataUrlTruthy then "magnified_source"
       else "SourceGraphic")
      p.blur, some "blurred_source"⟩,
   ⟨.feImage .displacementMap, some "displacement_map"⟩,
   ⟨.feComponentTransfer "blurred_source"
      (some (1, 0)) (some (0, 0)) (some (0, 0)) none, some "red_channel"⟩,
   ⟨.feComponentTransfer "blurred_source"
      (some (0, 0)) (some (1, 0)) (some (0, 0)) none, some "green_channel"⟩,
   ⟨.feComponentTransfer "blurred_source"
      (some (0, 0)) (some (0, 0)) (some (1, 0)) none, some "blue_channel"⟩,
   ⟨.feDisplacementMap "red_channel" "displacement_map"
      (scaleOf p m * 0.8) "R" "G", some "displaced_red"⟩,
   ⟨.feDisplacementMap "green_channel" "displacement_map"
      (scaleOf p m * 0.9) "R" "G", some "displaced_green"⟩,
   ⟨.feDisplacementMap "blue_channel" "displacement_map"
      (scaleOf p m) "R" "G", some "displaced_blue"⟩,
   ⟨.feBlend "displaced_red" "displaced_green" "screen", some "displaced_rg"⟩,
   ⟨.feBlend "displaced_rg" "displaced_blue" "screen", some "displaced_combined"⟩,
   ⟨.feGaussianBlur "displaced_combined" 10, some "displaced_blurred"⟩,
   ⟨.feComponentTransfer "displaced_blurred"
      none none none (some (0.7, 0)), some "displaced_blurred_faded"⟩,
   ⟨.feBlend "displaced_combined" "displaced_blurred_faded" "normal", some "displaced"⟩,
   ⟨.feColorMatrix "displaced" (.saturate (effSpecularSaturation p)),
     some "displaced_saturated"⟩]

lemma filterContent_split (p : FilterParams) (m : ℚ) :
    filterContent p m = filterFront p m ++
      [⟨.feImage .specularLayer, some "specular_layer"⟩,
       ⟨.feComposite "displaced_saturated" "specular_layer" "in", some "specular_saturated"⟩,
       ⟨.feComponentTransfer "specular_layer"
          none none none (some (p.specularOpacity, 0)), some "specular_faded"⟩,
       ⟨.feBlend "specular_saturated" "displaced" "normal", some "withSaturation"⟩,
       ⟨.feBlend "specular_faded" "withSaturation" "normal", none⟩] := by
  simp [filterContent, filterFront, List.append_assoc]

/-- Truthiness of the guard `if (magnifyingScale)` of the data-URL computation (source
lines 112-116): a magnifying data URL is produced only when the prop is a truthy number. -/
def magnifyingDataUrlProduced (ms : Option ℚ) : Bool := numberTruthy ms

/-- The dataflow of `calculateDisplacementMap` (source lines 65-72): the 1-D field is
computed from glass thickness, bezel width, the bezel height profile (destructuring
default `CONVEX.fn`, source line 62) and the refractive index.  The rasterizer body lives
in a module not under src/, so it is taken as the function argument `calc`. -/
def mapOf (calcDM : ℚ → ℚ → (ℚ → ℚ) → ℚ → List ℚ) (p : FilterParams) : List ℚ :=
  calcDM p.glassThickness p.bezelWidth (p.bezelHeightFn.getD CONVEX_fn) p.refractiveIndex

/-- The dataflow of `calculateDisplacementMap2` (source lines 78-90): the 2-D displacement
bitmap is computed from canvas size (defaulting to the shape size), shape geometry, the
field maximum, the 1-D field and the device pixel ratio.  `calc2` stands for the
rasterizer body, which lives in a module not under src/. -/
def displacementMapOf {α : Type} (calcDM : ℚ → ℚ → (ℚ → ℚ) → ℚ → List ℚ)
    (calc2 : ℚ → ℚ → ℚ → ℚ → ℚ → ℚ → ℚ → List ℚ → Option ℚ → α) (p : FilterParams) : α :=
  calc2 (p.canvasWidth.getD p.width) (p.canvasHeight.getD p.height) p.width p.height
    p.radius p.bezelWidth (maximumDisplacement (mapOf calcDM p)) (mapOf calcDM p) p.dpr

/-- The dataflow of `calculateRefractionSpecular` (source lines 92-101): the specular
bitmap is computed from the shape geometry, the literal `50`, a literal `undefined`, and
the device pixel ratio.  `calcSpec` stands for the rasterizer body, which lives in a
module not under src/. -/
def specularLayerOf {β : Type} (calcSpec : ℚ → ℚ → ℚ → ℚ → Option Unit → Option ℚ → β)
    (p : FilterParams) : β :=
  calcSpec p.width p.height p.radius 50 none p.dpr

/-- Replace exactly the five non-geometric scalar controls of a parameter record. -/
def setControls (p : FilterParams) (b so : ℚ) (ss sr : Option ℚ)
    (cs : Option Scheme) : FilterParams :=
  { p with blur := b, specularOpacity := so, specularSaturation := ss,
           scaleRatio := sr, colorScheme := cs }

/-- Concrete parameters taken from the `Slider` call site (part_001 lines 284-298):
blur 0, specularOpacity 0.4, specularSaturation 7, width 90, height 60, radius 30,
bezelWidth 16, glassThickness 80, refractiveIndex 1.45; scaleRatio left absent. -/
def pBase : FilterParams :=
  ⟨0, 0.4, some 7, none, none, none, 90, 60, 30, 80, 16, 1.45, none, none, none, none⟩

/-- Variant of `pBase` with a chosen magnification prop and color scheme. -/
def pW (ms : Option ℚ) (cs : Option Scheme) : FilterParams :=
  { pBase with magnifyingScale := ms, colorScheme := cs }

/-- Concrete parameters for the degenerate scenario: blur 0, specularOpacity 0,
specularSaturation omitted (defaulting to 4), no scale ratio, no magnification, no color
scheme. -/
def pD : FilterParams :=
  ⟨0, 0, none, none, none, none, 90, 60, 30, 80, 16, 1.45, none, none, none, none⟩

/-- Concrete constant input images: an opaque desaturated red source pixel
(premultiplied `(1/2, 9/20, 9/20, 1)`), and a fully transparent specular pixel (a pixel
of the specular bitmap away from the highlight band, where its edge-weighted falloff has
faded out). -/
def iD : EvalIn := ⟨⟨1/2, 9/20, 9/20, 1⟩, ⟨0, 0, 0, 0⟩, ⟨1/2, 1/2, 0, 1⟩, ⟨0, 0, 0, 0⟩⟩

/-- C1: the claim states that for every combination of optional stages every `in`/`in2`
reference of the emitted graph resolves to a reserved source token or a previously
declared result.  Evaluating the emitted graph shows this holds for the three
combinations with magnification enabled but fails for all three with magnification
disabled: there the first consumer still reads `in="magnified_source"` although the
magnification nodes are omitted, because the JSX ternaries (source lines 154-158 and
172-178) test the always-truthy `MotionValue` object `magnifyingDisplacementMapDataUrl`
instead of `magnifyingScale`, leaving their `"SourceGraphic"` fallback dead. -/
theorem c1_wellformedness_evaluation :
    (wellFormed (filterContent (pW (some 2) none) 1) = true ∧
     wellFormed (filterContent (pW (some 2) (some .light)) 1) = true ∧
     wellFormed (filterContent (pW (some 2) (some .dark)) 1) = true) ∧
    (wellFormed (filterContent (pW none none) 1) = false ∧
     wellFormed (filterContent (pW none (some .light)) 1) = false ∧
     wellFormed (filterContent (pW none (some .dark)) 1) = false) := by
  decide

/-- C2 (counterexample): the emitted graph contains no `feComposite` node that masks the
specular layer by the displaced-saturated composite's alpha — its only `feComposite`
node has `in="displaced_saturated"`, `in2="specular_layer"`, masking in the opposite
direction, and the direction matters: Porter-Duff `in` is not symmetric. -/
theorem c2_mask_direction_counterexample :
    (∀ n ∈ filterContent pBase 1,
      n.op ≠ FOp.feComposite "specular_layer" "displaced_saturated" "in") ∧
    (FNode.mk (.feComposite "displaced_saturated" "specular_layer" "in")
      (some "specular_saturated") ∈ filterContent pBase 1) ∧
    compositePx "in" ⟨1, 1, 1, 1⟩ ⟨0, 0, 0, 1⟩ ≠ compositePx "in" ⟨0, 0, 0, 1⟩ ⟨1, 1, 1, 1⟩ := by
  refine ⟨by decide, by decide, ?_⟩
  simp only [compositePx, String.reduceEq, reduceIte]
  norm_num [Px.mk.injEq]

/-- C2 (amended): the terminal specular stage of every assembled graph consists of, in
order: an `feComposite` masking the displaced-saturated composite to the alpha shape of
the specular bitmap (operator `in`), an `feComponentTransfer` fading the raw specular
layer's alpha by the specularOpacity parameter, a `normal` blend of the masked composite
over the displaced result, and a terminal `normal` blend of the faded raw specular over
that result. -/
theorem c2_terminal_specular_stage (p : FilterParams) (m : ℚ) :
    ∃ pre, filterContent p m = pre ++
      [⟨.feComposite "displaced_saturated" "specular_layer" "in", some "specular_saturated"⟩,
       ⟨.feComponentTransfer "specular_layer"
          none none none (some (p.specularOpacity, 0)), some "specular_faded"⟩,
       ⟨.feBlend "specular_saturated" "displaced" "normal", some "withSaturation"⟩,
       ⟨.feBlend "specular_faded" "withSaturation" "normal", none⟩] :=
  ⟨filterFront p m ++ [⟨.feImage .specularLayer, some "specular_layer"⟩], by
    rw [filterContent_split]; simp⟩

set_option maxHeartbeats 2000000 in
/-- C3 (counterexample): at a parameter setting with `specularOpacity = 0` and a pixel
where the specular bitmap is transparent, the terminal blend does not equal the
`displaced_saturated` result: the saturation boost is masked away there, so the terminal
shows the unsaturated `displaced` pixel. -/
theorem c3_specular_zero_counterexample :
    pD.specularOpacity = 0 ∧
      ¬ some (terminalPx iD pD 1) = resultPx iD pD 1 "displaced_saturated" := by
  refine ⟨rfl, ?_⟩
  simp only [terminalPx, resultPx, filterContent, evalNodes, evalStep, resolveIn, lookupPx,
    bitmapPx, transferPx, transferApp, blendPx, compositePx, colorMatrixPx, premultOf,
    straightR, straightG, straightB, clamp01, scaleOf, effSpecularSaturation, numberTruthy,
    pD, iD, Option.getD, String.reduceEq, reduceIte]
  norm_num [min_def, max_def]

/-- C3 (amended): for every parameter setting with `specularOpacity = 0` and all constant
input images, the faded raw specular contributes nothing: the terminal blend equals the
`withSaturation` result (the specular-masked saturated composite blended over the
displaced result) — not, in general, the pre-specular `displaced_saturated` result. -/
theorem c3_specular_zero_amended (p : FilterParams) (m : ℚ) (I : EvalIn)
    (h : p.specularOpacity = 0) :
    some (terminalPx I p m) = resultPx I p m "withSaturation" := by
  unfold terminalPx resultPx
  rw [filterContent_split, h, evalNodes_append]
  simp [evalNodes, evalStep, resolveIn, lookupPx, bitmapPx, transferPx, transferApp,
    blendPx, compositePx, premultOf, clamp01]

/-- C3 (witness): the amended statement instantiated at the concrete scenario. -/
theorem c3_specular_zero_amended_witness :
    pD.specularOpacity = 0 ∧ some (terminalPx iD pD 1) = resultPx iD pD 1 "withSaturation" :=
  ⟨rfl, c3_specular_zero_amended pD 1 iD rfl⟩

/-- C4: for every `maximumDisplacement` value `m` and caller-supplied scale ratio `r`, the
three per-channel `feDisplacementMap` nodes carry scales `(m*r)*0.8`, `(m*r)*0.9` and
`m*r`, so the per-channel multipliers stand in the fixed ratio `0.8 : 0.9 : 1.0`
independently of the scale ratio. -/
theorem c4_dispersion_scales (p : FilterParams) (m r : ℚ) (h : p.scaleRatio = some r) :
    ((⟨.feDisplacementMap "red_channel" "displacement_map" (m * r * 0.8) "R" "G",
        some "displaced_red"⟩ : FNode) ∈ filterContent p m) ∧
    ((⟨.feDisplacementMap "green_channel" "displacement_map" (m * r * 0.9) "R" "G",
        some "displaced_green"⟩ : FNode) ∈ filterContent p m) ∧
    ((⟨.feDisplacementMap "blue_channel" "displacement_map" (m * r) "R" "G",
        some "displaced_blue"⟩ : FNode) ∈ filterContent p m) ∧
    (m * r * 0.8) * 10 = (m * r) * 8 ∧ (m * r * 0.9) * 10 = (m * r) * 9 := by
  refine ⟨?_, ?_, ?_, by ring, by ring⟩ <;> simp [filterContent, scaleOf, h]

/-- Variant of `pBase` with the caller supplying a scale ratio of 2. -/
def pW2 : FilterParams := { pBase with scaleRatio := some 2 }

/-- C4 (witness): the dispersion-scale statement at concrete inputs. -/
theorem c4_dispersion_scales_witness :
    ((pW2.scaleRatio = some 2) ∧
    ((⟨.feDisplacementMap "red_channel" "displacement_map" ((3 : ℚ) * 2 * 0.8) "R" "G",
        some "displaced_red"⟩ : FNode) ∈ filterContent pW2 3)) :=
  ⟨rfl, (c4_dispersion_scales pW2 3 2 rfl).1⟩

/-- C5 (counterexample): the emitted graph contains no `feBlend` whose `in` (top) layer is
the faded blurred copy and whose `in2` (backdrop) is the un-blurred combined result — the
overlay blend has the two roles reversed — and the roles matter: `normal` (source-over)
blending is not symmetric. -/
theorem c5_overlay_direction_counterexample :
    (∀ n ∈ filterContent pD 1,
      n.op ≠ FOp.feBlend "displaced_blurred_faded" "displaced_combined" "normal") ∧
    blendPx "normal" ⟨1, 0, 0, 1⟩ ⟨0, 1, 0, 1⟩ ≠ blendPx "normal" ⟨0, 1, 0, 1⟩ ⟨1, 0, 0, 1⟩ := by
  refine ⟨by decide, ?_⟩
  simp only [blendPx, String.reduceEq, reduceIte]
  norm_num [Px.mk.injEq]

/-- C5 (amended): every assembled graph — for every parameter combination, including
blur 0, specularOpacity 0, no color scheme and no magnification — contains the secondary
blur-fade overlay: a Gaussian blur (stdDeviation 10) of the combined displaced result, an
alpha fade of the blurred copy by the fixed factor 0.7, and a `normal` blend of the
un-blurred combined result over the faded blurred copy. -/
theorem c5_blur_fade_overlay (p : FilterParams) (m : ℚ) :
    ((⟨.feGaussianBlur "displaced_combined" 10, some "displaced_blurred"⟩ : FNode)
        ∈ filterContent p m) ∧
    ((⟨.feComponentTransfer "displaced_blurred" none none none (some (0.7, 0)),
        some "displaced_blurred_faded"⟩ : FNode) ∈ filterContent p m) ∧
    ((⟨.feBlend "displaced_combined" "displaced_blurred_faded" "normal",
        some "displaced"⟩ : FNode) ∈ filterContent p m) := by
  refine ⟨?_, ?_, ?_⟩ <;> simp [filterContent]

/-- C6: the three rasterized artifacts — the 1-D displacement field, the 2-D displacement
bitmap and the specular bitmap — are unchanged when only the non-geometric scalar
controls (blur, specularOpacity, specularSaturation, scaleRatio, colorScheme) change,
whatever the rasterizer bodies are: none of those controls flows into any rasterizer
call. -/
theorem c6_bitmaps_geometric_only {α β : Type} (calcDM : ℚ → ℚ → (ℚ → ℚ) → ℚ → List ℚ)
    (calc2 : ℚ → ℚ → ℚ → ℚ → ℚ → ℚ → ℚ → List ℚ → Option ℚ → α)
    (calcSpec : ℚ → ℚ → ℚ → ℚ → Option Unit → Option ℚ → β) (p : FilterParams)
    (b so : ℚ) (ss sr : Option ℚ) (cs : Option Scheme) :
    mapOf calcDM (setControls p b so ss sr cs) = mapOf calcDM p ∧
    displacementMapOf calcDM calc2 (setControls p b so ss sr cs) =
      displacementMapOf calcDM calc2 p ∧
    specularLayerOf calcSpec (setControls p b so ss sr cs) = specularLayerOf calcSpec p :=
  ⟨rfl, rfl, rfl⟩

/-- C7: for a non-empty 1-D field, `maximumDisplacement` bounds the absolute value of
every sample and is attained at some sample. -/
theorem c7_maximum_displacement (l : List ℚ) (h : l ≠ []) :
    (∀ v ∈ l, |v| ≤ maximumDisplacement l) ∧ ∃ v ∈ l, maximumDisplacement l = |v| := by
  match l, h with
  | v₀ :: vs, _ =>
    simp only [maximumDisplacement, List.map_cons]
    constructor
    · intro v hv
      rcases List.mem_cons.mp hv with h | h
      · rw [h]
        exact (foldl_max_bounds (vs.map (fun v => |v|)) |v₀|).1
      · exact (foldl_max_bounds (vs.map (fun v => |v|)) |v₀|).2 _
          (List.mem_map_of_mem (fun v => |v|) h)
    · rcases foldl_max_mem (vs.map (fun v => |v|)) |v₀| with h | h
      · exact ⟨v₀, List.mem_cons_self _ _, h⟩
      · rcases List.mem_map.mp h with ⟨v, hv, hveq⟩
        exact ⟨v, List.mem_cons_of_mem _ hv, hveq.symm⟩

/-- C7 (witness): the bound and attainment at a concrete field. -/
theorem c7_maximum_displacement_witness :
    (([3, -5, 2] : List ℚ) ≠ []) ∧
      ((∀ v ∈ ([3, -5, 2] : List ℚ), |v| ≤ maximumDisplacement [3, -5, 2]) ∧
        ∃ v ∈ ([3, -5, 2] : List ℚ), maximumDisplacement [3, -5, 2] = |v|) :=
  ⟨by decide, c7_maximum_displacement [3, -5, 2] (by decide)⟩

/-- C8: when the caller omits `specularSaturation`, the saturate color-matrix node of the
emitted graph carries the value 4; when the caller omits the bezel height-profile
selector, the 1-D field computation receives the `CONVEX` profile function. -/
theorem c8_defaults (p : FilterParams) (m : ℚ) (h1 : p.specularSaturation = none)
    (h2 : p.bezelHeightFn = none) :
    ((⟨.feColorMatrix "displaced" (.saturate 4), some "displaced_saturated"⟩ : FNode)
        ∈ filterContent p m) ∧
    effSpecularSaturation p = 4 ∧
    ∀ calcDM : ℚ → ℚ → (ℚ → ℚ) → ℚ → List ℚ,
      mapOf calcDM p = calcDM p.glassThickness p.bezelWidth CONVEX_fn p.refractiveIndex := by
  refine ⟨?_, ?_, ?_⟩
  · simp [filterContent, effSpecularSaturation, h1]
  · simp [effSpecularSaturation, h1]
  · intro calcDM
    simp [mapOf, h2]

/-- C8 (witness): the defaults statement at concrete inputs. -/
theorem c8_defaults_witness :
    (pD.specularSaturation = none) ∧ (pD.bezelHeightFn = none) ∧
    ((⟨.feColorMatrix "displaced" (.saturate 4), some "displaced_saturated"⟩ : FNode)
        ∈ filterContent pD 1) ∧
    effSpecularSaturation pD = 4 ∧
    mapOf (fun gt bw f ri => [gt, bw, f 1, ri]) pD =
      [pD.glassThickness, pD.bezelWidth, CONVEX_fn 1, pD.refractiveIndex] :=
  ⟨rfl, rfl, (c8_defaults pD 1 rfl rfl).1, (c8_defaults pD 1 rfl rfl).2.1,
    (c8_defaults pD 1 rfl rfl).2.2 (fun gt bw f ri => [gt, bw, f 1, ri])⟩

/-- C9: when the caller omits `scaleRatio`, the auto-scale equals `maximumDisplacement`
exactly (the absent ratio behaves as the multiplier 1), and the blue-channel
`feDisplacementMap` node carries exactly that value. -/
theorem c9_default_scale_ratio (p : FilterParams) (m : ℚ) (h : p.scaleRatio = none) :
    scaleOf p m = m ∧
    ((⟨.feDisplacementMap "blue_channel" "displacement_map" m "R" "G",
        some "displaced_blue"⟩ : FNode) ∈ filterContent p m) := by
  constructor
  · simp [scaleOf, h]
  · simp [filterContent, scaleOf, h]

/-- C9 (witness): the default-ratio statement at concrete inputs. -/
theorem c9_default_scale_ratio_witness :
    (pBase.scaleRatio = none) ∧
      (scaleOf pBase 5 = 5 ∧
        ((⟨.feDisplacementMap "blue_channel" "displacement_map" 5 "R" "G",
            some "displaced_blue"⟩ : FNode) ∈ filterContent pBase 5)) :=
  ⟨rfl, c9_default_scale_ratio pBase 5 rfl⟩

/-- C10: supplying `magnifyingScale` as the number 0 omits the magnification stage from
the emitted graph exactly as when the prop is absent (the two graphs are equal node for
node), and produces no magnifying bitmap data URL. -/
theorem c10_zero_magnifying_scale (p : FilterParams) (m : ℚ) :
    filterContent { p with magnifyingScale := some 0 } m =
      filterContent { p with magnifyingScale := none } m ∧
    magnifyingDataUrlProduced (some 0) = false :=
  ⟨rfl, rfl⟩

end LiquidGlass
